import Mathlib

/-
Shallow embedding of src/accel/shared/decaf-callback.c (DECAF callback
dispatch and applicability-filtering engine).

Modelling conventions:
  - guest virtual addresses (gva_t) and opcode indices are Nat;
  - C ints that may go negative (the global block begin/end counts) are Int;
  - the counting hashtable / hashmap wrapper (decaf-hashtable-wrapper.h,
    not under src/) is modelled from the spec as total count functions;
  - a callback record is identified by a Nat handle (the C code uses the
    struct pointer as the handle); handles are allocated from a counter;
  - every mutating operation returns the new state together with the list
    of register_decaf_flush_translation_cache calls it issued, in order;
  - dispatch helpers return the list of handles of the records they
    invoked, in iteration order (the list head is the most recently
    registered record, mirroring QLIST_INSERT_HEAD / QLIST_FOREACH_SAFE).
-/

/-- Modelled from the spec: the page granularity (TARGET_PAGE_MASK in the
QEMU headers, not under src/). A page is the address with the low
page-offset bits cleared; 4 KiB pages. -/
def TARGET_PAGE_SIZE : Nat := 4096

/-- Page of an address: `a & TARGET_PAGE_MASK` in the C code. For addresses
below the machine word width this equals clearing the low 12 bits. -/
def pageMask (a : Nat) : Nat := a / TARGET_PAGE_SIZE * TARGET_PAGE_SIZE

/-- Modelled from the spec: the reserved wildcard / unknown address value
(INV_ADDR in decaf-types-common.h, not under src/), the all-ones 32-bit
guest virtual address. -/
def INV_ADDR : Nat := 4294967295

/-- Modelled from the spec: DECAF_NULL_HANDLE, the null registration
handle. Real handles allocated by this model start at 1. -/
def DECAF_NULL_HANDLE : Nat := 0

/-- Modelled from the spec: the optimized-callback class enumeration OCB_t
(decaf-callback-common.h, not under src/): ALL / CONST / PAGE plus the
reserved NOT variants. -/
inductive OCB where
  | OCB_ALL
  | OCB_CONST
  | OCB_CONST_NOT
  | OCB_PAGE
  | OCB_PAGE_NOT
deriving DecidableEq, Repr

/-- Modelled from the spec: the fixed enumeration of event kinds
(DECAF_callback_type_t in decaf-callback-common.h, not under src/),
restricted to the kinds this file dispatches. -/
inductive CBType where
  | DECAF_BLOCK_BEGIN_CB
  | DECAF_BLOCK_END_CB
  | DECAF_INSN_BEGIN_CB
  | DECAF_INSN_END_CB
  | DECAF_EIP_CHECK_CB
  | DECAF_OPCODE_RANGE_CB
  | DECAF_TLB_EXEC_CB
  | DECAF_NIC_REC_CB
  | DECAF_NIC_SEND_CB
  | DECAF_MEM_READ_CB
  | DECAF_MEM_WRITE_CB
  | DECAF_KEYSTROKE_CB
  | DECAF_READ_TAINTMEM_CB
  | DECAF_WRITE_TAINTMEM_CB
deriving DecidableEq, Repr

/-- Modelled from the spec: OpcodeRangeCallbackConditions
(decaf-callback-common.h, not under src/): the four transition classes
form a bitmask and the all-transitions value includes all four. -/
def DECAF_USER_TO_USER_ONLY : Nat := 1

/-- Modelled from the spec: user-to-kernel transition class bit. -/
def DECAF_USER_TO_KERNEL_ONLY : Nat := 2

/-- Modelled from the spec: kernel-to-user transition class bit. -/
def DECAF_KERNEL_TO_USER_ONLY : Nat := 4

/-- Modelled from the spec: kernel-to-kernel transition class bit. -/
def DECAF_KERNEL_TO_KERNEL_ONLY : Nat := 8

/-- Modelled from the spec: the all-transitions condition value, the union
of the four class bits. -/
def DECAF_ALL : Nat := 15

/-- One registration (callback_struct in the C source). The `enabled`
field models the `int *enabled` condition pointer: `none` is a NULL
pointer (always enabled at dispatch), `some v` is the value the pointer
refers to at the time of interest. `cfrom` / `cto` are the from / to
fields (for opcode ranges they hold the normalized start / end opcode).
The callback function itself is external; the record is identified by its
`handle`. -/
structure CallbackRecord where
  enabled : Option Nat
  cfrom : Nat
  cto : Nat
  ocb_type : OCB
  handle : Nat
deriving DecidableEq, Repr

/-- Cache invalidation scope (flush_cache_t of decaf-main.h, not under
src/): the scopes used by this file. -/
inductive FlushScope where
  | ALL_CACHE
  | PAGE_LEVEL
  | BLOCK_LEVEL
deriving DecidableEq, Repr

/-- One call to register_decaf_flush_translation_cache(scope, addr). -/
structure Flush where
  scope : FlushScope
  addr : Nat
deriving DecidableEq, Repr

/-- Modelled from the spec: counting set add (decaf-hashtable-wrapper.h,
not under src/). Increments the count of a key, creating it at count 1
when absent, and reports whether the key transitioned 0 to 1 (the C call
site compares the result with 1). -/
def counting_hashtable_add (t : Nat → Nat) (k : Nat) : (Nat → Nat) × Bool :=
  (fun x => if x = k then t x + 1 else t x, t k == 0)

/-- Modelled from the spec: counting set remove. Decrements the count of a
key, clamping at zero (a decrement below zero is an internal
inconsistency, not propagated), and reports whether the key transitioned
1 to 0 (the C call site compares the result with 0). -/
def counting_hashtable_remove (t : Nat → Nat) (k : Nat) : (Nat → Nat) × Bool :=
  (fun x => if x = k then t x - 1 else t x, t k == 1)

/-- Modelled from the spec: counting set membership query. -/
def counting_hashtable_exist (t : Nat → Nat) (k : Nat) : Bool :=
  t k != 0

/-- Modelled from the spec: counting map add, operating on the nested
counting set of the first key and bubbling up the same transition
report. -/
def counting_hashmap_add (m : Nat → Nat → Nat) (kf kt : Nat) :
    (Nat → Nat → Nat) × Bool :=
  (fun f t => if f = kf ∧ t = kt then m f t + 1 else m f t, m kf kt == 0)

/-- Modelled from the spec: counting map remove, clamping at zero and
reporting the 1 to 0 transition. -/
def counting_hashmap_remove (m : Nat → Nat → Nat) (kf kt : Nat) :
    (Nat → Nat → Nat) × Bool :=
  (fun f t => if f = kf ∧ t = kt then m f t - 1 else m f t, m kf kt == 1)

/-- Modelled from the spec: counting map pair-membership query. -/
def counting_hashmap_exist (m : Nat → Nat → Nat) (kf kt : Nat) : Bool :=
  m kf kt != 0

/-- The global mutable state of decaf-callback.c after decaf_callback_init:
the ALL flags and counts, the five filter tables, the per-event callback
lists, the opcode dispatch array instructionCallbacks[0x200], and the
handle allocator. -/
structure DecafState where
  bEnableAllBlockBeginCallbacks : Bool
  enableAllBlockBeginCallbacksCount : Int
  bEnableAllBlockEndCallbacks : Bool
  enableAllBlockEndCallbacksCount : Int
  pOBBTable : Nat → Nat
  pOBBPageTable : Nat → Nat
  pOBEFromPageTable : Nat → Nat
  pOBEToPageTable : Nat → Nat
  pOBEPageMap : Nat → Nat → Nat
  callback_list_heads : CBType → List CallbackRecord
  instructionCallbacks : Nat → Option CallbackRecord
  nextHandle : Nat

/-- The state produced by decaf_callback_init: empty lists, empty tables,
cleared flags and counts. -/
def initState : DecafState where
  bEnableAllBlockBeginCallbacks := false
  enableAllBlockBeginCallbacksCount := 0
  bEnableAllBlockEndCallbacks := false
  enableAllBlockEndCallbacksCount := 0
  pOBBTable := fun _ => 0
  pOBBPageTable := fun _ => 0
  pOBEFromPageTable := fun _ => 0
  pOBEToPageTable := fun _ => 0
  pOBEPageMap := fun _ _ => 0
  callback_list_heads := fun _ => []
  instructionCallbacks := fun _ => none
  nextHandle := 1

/-- QLIST scan for the record whose address equals the handle: first match
in list order. -/
def findRecord : List CallbackRecord → Nat → Option CallbackRecord
  | [], _ => none
  | r :: rest, h => if r.handle = h then some r else findRecord rest h

/-- QLIST_REMOVE of the first record matching the handle. -/
def removeRecord : List CallbackRecord → Nat → List CallbackRecord
  | [], _ => []
  | r :: rest, h => if r.handle = h then rest else r :: removeRecord rest h

/-- QLIST_INSERT_HEAD into the list of one event kind. -/
def insertHead (ls : CBType → List CallbackRecord) (k : CBType)
    (r : CallbackRecord) : CBType → List CallbackRecord :=
  fun x => if x = k then r :: ls x else ls x

/-- Replace the list of one event kind. -/
def setList (ls : CBType → List CallbackRecord) (k : CBType)
    (l : List CallbackRecord) : CBType → List CallbackRecord :=
  fun x => if x = k then l else ls x

/-- The dispatch-time enabled test: `!cb_struct->enabled ||
*cb_struct->enabled`. -/
def recEnabled (r : CallbackRecord) : Bool :=
  match r.enabled with
  | none => true
  | some v => v != 0

/-- decaf_register_opcode_range_callback: reject end < start, normalize
two-byte-prefixed opcodes into the upper half of the index space, write
the record into every slot of the normalized inclusive range, insert into
the opcode-range list and flush the whole cache. -/
def decaf_register_opcode_range_callback (s : DecafState)
    (condition : Option Nat) (start_opcode end_opcode : Nat) :
    DecafState × List Flush × Option Nat :=
  if end_opcode < start_opcode then
    (s, [], none)
  else
    let start1 := if 0x0f00 ≤ start_opcode
                  then 0x100 ||| (start_opcode &&& 0xff) else start_opcode
    let end1 := if 0x0f00 ≤ end_opcode
                then 0x100 ||| (end_opcode &&& 0xff) else end_opcode
    let h := s.nextHandle
    let r : CallbackRecord :=
      { enabled := condition, cfrom := start1, cto := end1,
        ocb_type := OCB.OCB_ALL, handle := h }
    ({ s with
        instructionCallbacks :=
          fun i => if start1 ≤ i ∧ i ≤ end1 then some r
                   else s.instructionCallbacks i,
        callback_list_heads :=
          insertHead s.callback_list_heads CBType.DECAF_OPCODE_RANGE_CB r,
        nextHandle := h + 1 },
     [⟨FlushScope.ALL_CACHE, 0⟩], some h)

/-- decaf_unregister_opcode_range_callback: find the record by handle in
the opcode-range list; on a failed sanity check of its stored bounds
return -1 without mutating; otherwise clear every slot of its range and
remove it. No cache flush is issued. -/
def decaf_unregister_opcode_range_callback (s : DecafState) (h : Nat) :
    DecafState × List Flush × Int :=
  match findRecord (s.callback_list_heads CBType.DECAF_OPCODE_RANGE_CB) h with
  | none => (s, [], -1)
  | some r =>
    if 0x1ff < r.cfrom ∨ 0x1ff < r.cto ∨ r.cto < r.cfrom then
      (s, [], -1)
    else
      ({ s with
          instructionCallbacks :=
            fun i => if r.cfrom ≤ i ∧ i ≤ r.cto then none
                     else s.instructionCallbacks i,
          callback_list_heads :=
            setList s.callback_list_heads CBType.DECAF_OPCODE_RANGE_CB
              (removeRecord
                (s.callback_list_heads CBType.DECAF_OPCODE_RANGE_CB) h) },
       [], 0)

/-- decaf_register_optimized_block_begin_callback. OCB_CONST is rewritten
to OCB_ALL up front; the ALL branch (also the switch default) raises the
global flag and count and flushes the whole cache on the 0 to 1 count
transition; the reserved NOT classes touch no table; the PAGE branch adds
the masked page to pOBBPageTable and flushes that page on its 0 to 1
transition. The record keeps the unmasked address in its from field. -/
def decaf_register_optimized_block_begin_callback (s : DecafState)
    (cb_cond : Option Nat) (addr : Nat) (ty : OCB) :
    DecafState × List Flush × Option Nat :=
  let ty1 := if ty = OCB.OCB_CONST then OCB.OCB_ALL else ty
  let h := s.nextHandle
  let r : CallbackRecord :=
    { enabled := cb_cond, cfrom := addr, cto := INV_ADDR,
      ocb_type := ty1, handle := h }
  let ins := fun (s1 : DecafState) =>
    { s1 with
        callback_list_heads :=
          insertHead s1.callback_list_heads CBType.DECAF_BLOCK_BEGIN_CB r,
        nextHandle := h + 1 }
  match ty1 with
  | OCB.OCB_ALL | OCB.OCB_CONST =>
    let cnt := s.enableAllBlockBeginCallbacksCount + 1
    (ins { s with
            bEnableAllBlockBeginCallbacks := true,
            enableAllBlockBeginCallbacksCount := cnt },
     if cnt = 1 then [⟨FlushScope.ALL_CACHE, 0⟩] else [], some h)
  | OCB.OCB_CONST_NOT => (ins s, [], some h)
  | OCB.OCB_PAGE_NOT => (ins s, [], some h)
  | OCB.OCB_PAGE =>
    let key := pageMask addr
    let p := counting_hashtable_add s.pOBBPageTable key
    (ins { s with pOBBPageTable := p.1 },
     if p.2 then [⟨FlushScope.PAGE_LEVEL, key⟩] else [], some h)

/-- decaf_unregister_optimized_block_begin_callback. The switch default
(covering OCB_ALL and, notably, the reserved NOT classes) decrements the
global count, clearing the flag and flushing the whole cache when the
count reaches 0 and clamping a negative count back to 0; the PAGE case
removes the UNMASKED stored from address from pOBBPageTable and flushes
that page on the 1 to 0 transition. -/
def decaf_unregister_optimized_block_begin_callback (s : DecafState)
    (h : Nat) : DecafState × List Flush × Int :=
  match findRecord (s.callback_list_heads CBType.DECAF_BLOCK_BEGIN_CB) h with
  | none => (s, [], -1)
  | some r =>
    let rem := fun (s1 : DecafState) =>
      { s1 with
          callback_list_heads :=
            setList s1.callback_list_heads CBType.DECAF_BLOCK_BEGIN_CB
              (removeRecord
                (s1.callback_list_heads CBType.DECAF_BLOCK_BEGIN_CB) h) }
    match r.ocb_type with
    | OCB.OCB_ALL | OCB.OCB_CONST | OCB.OCB_CONST_NOT | OCB.OCB_PAGE_NOT =>
      let cnt := s.enableAllBlockBeginCallbacksCount - 1
      if cnt = 0 then
        (rem { s with
                enableAllBlockBeginCallbacksCount := cnt,
                bEnableAllBlockBeginCallbacks := false },
         [⟨FlushScope.ALL_CACHE, 0⟩], 0)
      else if cnt < 0 then
        (rem { s with enableAllBlockBeginCallbacksCount := 0 }, [], 0)
      else
        (rem { s with enableAllBlockBeginCallbacksCount := cnt }, [], 0)
    | OCB.OCB_PAGE =>
      let p := counting_hashtable_remove s.pOBBPageTable r.cfrom
      (rem { s with pOBBPageTable := p.1 },
       if p.2 then [⟨FlushScope.PAGE_LEVEL, r.cfrom⟩] else [], 0)

/-- decaf_register_optimized_block_end_callback. Both wildcard: global
flag and count, whole-cache flush on the 0 to 1 transition. To wildcard:
add the masked from page to pOBEFromPageTable, page flush (at the
unmasked from address) on its 0 to 1 transition. From wildcard: add the
masked to page to pOBEToPageTable, WHOLE-cache flush on its 0 to 1
transition. Both specific: add the masked pair to pOBEPageMap, page flush
at the unmasked from address on its 0 to 1 transition. -/
def decaf_register_optimized_block_end_callback (s : DecafState)
    (cb_cond : Option Nat) (f t : Nat) :
    DecafState × List Flush × Option Nat :=
  let h := s.nextHandle
  let r : CallbackRecord :=
    { enabled := cb_cond, cfrom := f, cto := t,
      ocb_type := OCB.OCB_ALL, handle := h }
  let ins := fun (s1 : DecafState) =>
    { s1 with
        callback_list_heads :=
          insertHead s1.callback_list_heads CBType.DECAF_BLOCK_END_CB r,
        nextHandle := h + 1 }
  if f = INV_ADDR ∧ t = INV_ADDR then
    let cnt := s.enableAllBlockEndCallbacksCount + 1
    (ins { s with
            enableAllBlockEndCallbacksCount := cnt,
            bEnableAllBlockEndCallbacks := true },
     if cnt = 1 then [⟨FlushScope.ALL_CACHE, 0⟩] else [], some h)
  else if t = INV_ADDR then
    let p := counting_hashtable_add s.pOBEFromPageTable (pageMask f)
    (ins { s with pOBEFromPageTable := p.1 },
     if p.2 then [⟨FlushScope.PAGE_LEVEL, f⟩] else [], some h)
  else if f = INV_ADDR then
    let p := counting_hashtable_add s.pOBEToPageTable (pageMask t)
    (ins { s with pOBEToPageTable := p.1 },
     if p.2 then [⟨FlushScope.ALL_CACHE, 0⟩] else [], some h)
  else
    let p := counting_hashmap_add s.pOBEPageMap (pageMask f) (pageMask t)
    (ins { s with pOBEPageMap := p.1 },
     if p.2 then [⟨FlushScope.PAGE_LEVEL, f⟩] else [], some h)

/-- decaf_unregister_optimized_block_end_callback, the mirror of the
registration: the from-only and pair cases remove the MASKED page keys
and flush that page on the 1 to 0 transition, the to-only case flushes
the whole cache on its 1 to 0 transition, the both-wildcard case
decrements the global count with the same clamp as block begin. -/
def decaf_unregister_optimized_block_end_callback (s : DecafState)
    (h : Nat) : DecafState × List Flush × Int :=
  match findRecord (s.callback_list_heads CBType.DECAF_BLOCK_END_CB) h with
  | none => (s, [], -1)
  | some r =>
    let rem := fun (s1 : DecafState) =>
      { s1 with
          callback_list_heads :=
            setList s1.callback_list_heads CBType.DECAF_BLOCK_END_CB
              (removeRecord
                (s1.callback_list_heads CBType.DECAF_BLOCK_END_CB) h) }
    if r.cfrom = INV_ADDR ∧ r.cto = INV_ADDR then
      let cnt := s.enableAllBlockEndCallbacksCount - 1
      if cnt = 0 then
        (rem { s with
                enableAllBlockEndCallbacksCount := cnt,
                bEnableAllBlockEndCallbacks := false },
         [⟨FlushScope.ALL_CACHE, 0⟩], 0)
      else if cnt < 0 then
        (rem { s with enableAllBlockEndCallbacksCount := 0 }, [], 0)
      else
        (rem { s with enableAllBlockEndCallbacksCount := cnt }, [], 0)
    else if r.cto = INV_ADDR then
      let key := pageMask r.cfrom
      let p := counting_hashtable_remove s.pOBEFromPageTable key
      (rem { s with pOBEFromPageTable := p.1 },
       if p.2 then [⟨FlushScope.PAGE_LEVEL, key⟩] else [], 0)
    else if r.cfrom = INV_ADDR then
      let key := pageMask r.cto
      let p := counting_hashtable_remove s.pOBEToPageTable key
      (rem { s with pOBEToPageTable := p.1 },
       if p.2 then [⟨FlushScope.ALL_CACHE, 0⟩] else [], 0)
    else
      let p := counting_hashmap_remove s.pOBEPageMap (pageMask r.cfrom)
                 (pageMask r.cto)
      (rem { s with pOBEPageMap := p.1 },
       if p.2 then [⟨FlushScope.PAGE_LEVEL, pageMask r.cfrom⟩] else [], 0)

/-- decaf_register_callback: block begin and end delegate to the optimized
registrations with wildcard addresses; tlb-exec inserts without any
flush; every other kind flushes the whole cache exactly when its list was
empty before the insertion. The from / to / class fields of the record
are uninitialized in C on the generic path and are never read there; the
model zeroes them. -/
def decaf_register_callback (s : DecafState) (cb_type : CBType)
    (cb_cond : Option Nat) : DecafState × List Flush × Option Nat :=
  if cb_type = CBType.DECAF_BLOCK_BEGIN_CB then
    decaf_register_optimized_block_begin_callback s cb_cond INV_ADDR
      OCB.OCB_ALL
  else if cb_type = CBType.DECAF_BLOCK_END_CB then
    decaf_register_optimized_block_end_callback s cb_cond INV_ADDR INV_ADDR
  else
    let h := s.nextHandle
    let r : CallbackRecord :=
      { enabled := cb_cond, cfrom := 0, cto := 0,
        ocb_type := OCB.OCB_ALL, handle := h }
    let fl :=
      if cb_type = CBType.DECAF_TLB_EXEC_CB then []
      else if s.callback_list_heads cb_type = [] then
        [(⟨FlushScope.ALL_CACHE, 0⟩ : Flush)]
      else []
    ({ s with
        callback_list_heads := insertHead s.callback_list_heads cb_type r,
        nextHandle := h + 1 },
     fl, some h)

/-- decaf_unregister_callback: block begin and end delegate to the
optimized unregistrations; otherwise remove the record found by handle
(error -1 with no effect when absent), with no flush for tlb-exec and a
whole-cache flush exactly when the removal leaves the list empty. -/
def decaf_unregister_callback (s : DecafState) (cb_type : CBType)
    (h : Nat) : DecafState × List Flush × Int :=
  if cb_type = CBType.DECAF_BLOCK_BEGIN_CB then
    decaf_unregister_optimized_block_begin_callback s h
  else if cb_type = CBType.DECAF_BLOCK_END_CB then
    decaf_unregister_optimized_block_end_callback s h
  else
    match findRecord (s.callback_list_heads cb_type) h with
    | none => (s, [], -1)
    | some _ =>
      let l1 := removeRecord (s.callback_list_heads cb_type) h
      let fl :=
        if cb_type = CBType.DECAF_TLB_EXEC_CB then []
        else if l1 = [] then [(⟨FlushScope.ALL_CACHE, 0⟩ : Flush)]
        else []
      ({ s with callback_list_heads := setList s.callback_list_heads cb_type l1 },
       fl, 0)

/-- decaf_is_block_begin_callback_needed: global flag, then the page
table at the masked pc, then the (reserved, unused) exact-address
table. -/
def decaf_is_block_begin_callback_needed (s : DecafState) (pc : Nat) : Bool :=
  if s.bEnableAllBlockBeginCallbacks then true
  else if counting_hashtable_exist s.pOBBPageTable (pageMask pc) then true
  else if counting_hashtable_exist s.pOBBTable pc then true
  else false

/-- decaf_is_block_end_callback_needed: global flag; then the from page;
then, if the target is unknown (INV_ADDR), false; then the to page; then
the (from page, to page) pair map. -/
def decaf_is_block_end_callback_needed (s : DecafState) (f t : Nat) : Bool :=
  if s.bEnableAllBlockEndCallbacks then true
  else
    let f1 := pageMask f
    if counting_hashtable_exist s.pOBEFromPageTable f1 then true
    else if t = INV_ADDR then false
    else
      let t1 := pageMask t
      if counting_hashtable_exist s.pOBEToPageTable t1 then true
      else counting_hashmap_exist s.pOBEPageMap f1 t1

/-- The per-record gate of block-begin dispatch: the switch on ocb_type,
whose default (covering OCB_ALL, OCB_CONST_NOT and OCB_PAGE_NOT) invokes
unconditionally and whose PAGE case compares masked pages. -/
def blockBeginFires (r : CallbackRecord) (pc : Nat) : Bool :=
  match r.ocb_type with
  | OCB.OCB_PAGE => pageMask r.cfrom == pageMask pc
  | _ => true

/-- helper_decaf_invoke_block_begin_callback: walk the block-begin list,
invoking every enabled record whose class gate passes for the pc of the
executed block; returns the invoked handles in iteration order. -/
def helper_decaf_invoke_block_begin_callback :
    List CallbackRecord → Nat → List Nat
  | [], _ => []
  | r :: rest, pc =>
    if recEnabled r && blockBeginFires r pc then
      r.handle :: helper_decaf_invoke_block_begin_callback rest pc
    else
      helper_decaf_invoke_block_begin_callback rest pc

/-- The per-record gate of block-end dispatch: a record with wildcard to
is invoked unconditionally (its from field is not consulted); otherwise
the to pages must match, and then either from is wildcard or the from
pages must match. -/
def blockEndMatches (r : CallbackRecord) (cur_pc next_pc : Nat) : Bool :=
  if r.cto = INV_ADDR then true
  else if pageMask r.cto = pageMask next_pc then
    if r.cfrom = INV_ADDR then true
    else pageMask r.cfrom == pageMask cur_pc
  else false

/-- helper_decaf_invoke_block_end_callback: walk the block-end list with
the concrete source pc and the next pc resolved from the live execution
context (an external, architecture-specific lookup; here a parameter),
invoking every enabled record whose gate passes. -/
def helper_decaf_invoke_block_end_callback :
    List CallbackRecord → Nat → Nat → List Nat
  | [], _, _ => []
  | r :: rest, cur_pc, next_pc =>
    if recEnabled r && blockEndMatches r cur_pc next_pc then
      r.handle :: helper_decaf_invoke_block_end_callback rest cur_pc next_pc
    else
      helper_decaf_invoke_block_end_callback rest cur_pc next_pc

/-- The hardcoded kernel boundary of the opcode-range helper. -/
def opcode_range_kernel_base : Nat := 0x80000000

/-- The transition classification of the opcode-range helper: an address
strictly above the kernel base is kernel, otherwise user; the four
from-user / from-kernel and to-user / to-kernel combinations map to the
four class values. -/
def opcodeRangeTransitionClass (eip next_eip : Nat) : Nat :=
  if opcode_range_kernel_base < eip then
    if opcode_range_kernel_base < next_eip then DECAF_KERNEL_TO_KERNEL_ONLY
    else DECAF_KERNEL_TO_USER_ONLY
  else
    if opcode_range_kernel_base < next_eip then DECAF_USER_TO_KERNEL_ONLY
    else DECAF_USER_TO_USER_ONLY

/-- The secondary condition check of helper_decaf_invoke_opcode_range
_callback, transcribed exactly: when the condition is not DECAF_ALL, the
class is computed and the helper returns early when
`temp & (cond == 0)` is nonzero, where `cond == 0` is the C comparison
yielding 0 or 1. -/
def opcodeRangeConditionPasses (cond : Nat) (eip next_eip : Nat) : Bool :=
  if cond ≠ DECAF_ALL then
    let temp := opcodeRangeTransitionClass eip next_eip
    if temp &&& (if cond = 0 then 1 else 0) ≠ 0 then false else true
  else true

/-- helper_decaf_invoke_opcode_range_callback: look up the dispatch slot
of the opcode; if a record is present, dereference its condition (NULL
dereference is undefined in C; the model reads 0) and apply the secondary
check; returns the invoked handle, if any. -/
def helper_decaf_invoke_opcode_range_callback (s : DecafState)
    (eip next_eip op : Nat) : Option Nat :=
  match s.instructionCallbacks op with
  | none => none
  | some r =>
    let cond := match r.enabled with
                | none => 0
                | some v => v
    if opcodeRangeConditionPasses cond eip next_eip then some r.handle
    else none

/-
Scenario states for the concrete claims. Each block below builds the
states a single claim evaluates; the tuple components are state, flush
list, result.
-/

/-- C1 scenario: one block-end registration with a specific from address
and a wildcard to address, from the initial state. -/
def c1_reg : DecafState × List Flush × Option Nat :=
  decaf_register_optimized_block_end_callback initState none 0x1000 INV_ADDR

/-- C2 scenario: a global (OCB_ALL) block-begin registration, then an
OCB_CONST_NOT registration, then unregistration of the OCB_CONST_NOT
record (handle 2). -/
def c2_reg1 : DecafState × List Flush × Option Nat :=
  decaf_register_optimized_block_begin_callback initState none INV_ADDR
    OCB.OCB_ALL

/-- C2 scenario, second step. -/
def c2_reg2 : DecafState × List Flush × Option Nat :=
  decaf_register_optimized_block_begin_callback c2_reg1.1 none 0x5000
    OCB.OCB_CONST_NOT

/-- C2 scenario, third step. -/
def c2_unreg : DecafState × List Flush × Int :=
  decaf_unregister_optimized_block_begin_callback c2_reg2.1 2

/-- C3 scenario: an opcode-range registration over [0x10, 0x1f] whose
condition value is DECAF_USER_TO_USER_ONLY. -/
def c3_reg : DecafState × List Flush × Option Nat :=
  decaf_register_opcode_range_callback initState
    (some DECAF_USER_TO_USER_ONLY) 0x10 0x1f

/-- C7 scenario: two OCB_PAGE block-begin registrations at the same
unaligned address 0x1001 (page 0x1000), then unregistration of both. -/
def c7_reg1 : DecafState × List Flush × Option Nat :=
  decaf_register_optimized_block_begin_callback initState none 0x1001
    OCB.OCB_PAGE

/-- C7 scenario, second registration. -/
def c7_reg2 : DecafState × List Flush × Option Nat :=
  decaf_register_optimized_block_begin_callback c7_reg1.1 none 0x1001
    OCB.OCB_PAGE

/-- C7 scenario, first unregistration (handle 1). -/
def c7_unreg1 : DecafState × List Flush × Int :=
  decaf_unregister_optimized_block_begin_callback c7_reg2.1 1

/-- C7 scenario, second (last) unregistration (handle 2). -/
def c7_unreg2 : DecafState × List Flush × Int :=
  decaf_unregister_optimized_block_begin_callback c7_unreg1.1 2

/-- C9 scenario: opcode-range registration covering indices [0x10, 0x1f]
(the half-open range [0x10, 0x20)). -/
def c9_reg1 : DecafState × List Flush × Option Nat :=
  decaf_register_opcode_range_callback initState (some 1) 0x10 0x1f

/-- C9 scenario: second registration covering [0x18, 0x27] (the half-open
range [0x18, 0x28)). -/
def c9_reg2 : DecafState × List Flush × Option Nat :=
  decaf_register_opcode_range_callback c9_reg1.1 (some 1) 0x18 0x27

/-- C9 scenario: unregistration of the first registration (handle 1). -/
def c9_unreg : DecafState × List Flush × Int :=
  decaf_unregister_opcode_range_callback c9_reg2.1 1

/-- Handle stored in one slot of the opcode dispatch table. -/
def slotHandle (s : DecafState) (i : Nat) : Option Nat :=
  (s.instructionCallbacks i).map CallbackRecord.handle

/-- Claim C1, counterexample: a block-end record registered with from
page 0x1000 and wildcard to is invoked by a dispatch whose concrete
source page is 0x3000 (a transition D to B with D distinct from A), so
the from page does not gate records whose to is wildcard. -/
theorem block_end_from_only_fires_on_other_pages :
    helper_decaf_invoke_block_end_callback
      (c1_reg.1.callback_list_heads CBType.DECAF_BLOCK_END_CB)
      0x3000 0x2000 = [1]
    ∧ pageMask 0x3000 ≠ pageMask 0x1000 := by
  decide

/-- Claim C1, amended: for an enabled record, block-end dispatch invokes
a wildcard-to record unconditionally (its from field is not consulted),
invokes a wildcard-from record exactly when the to pages match, and
invokes a fully specific record exactly when both pages match. -/
theorem block_end_dispatch_matrix (r : CallbackRecord) (cur next : Nat)
    (hEn : recEnabled r = true) :
    (r.cto = INV_ADDR →
      helper_decaf_invoke_block_end_callback [r] cur next = [r.handle]) ∧
    (r.cto ≠ INV_ADDR → r.cfrom = INV_ADDR →
      helper_decaf_invoke_block_end_callback [r] cur next =
        if pageMask r.cto = pageMask next then [r.handle] else []) ∧
    (r.cto ≠ INV_ADDR → r.cfrom ≠ INV_ADDR →
      helper_decaf_invoke_block_end_callback [r] cur next =
        if pageMask r.cto = pageMask next ∧ pageMask r.cfrom = pageMask cur
        then [r.handle] else []) := by
  refine ⟨fun h1 => ?_, fun h1 h2 => ?_, fun h1 h2 => ?_⟩
  · simp [helper_decaf_invoke_block_end_callback, blockEndMatches, hEn, h1]
  · by_cases hp : pageMask r.cto = pageMask next <;>
      simp [helper_decaf_invoke_block_end_callback, blockEndMatches, hEn,
        h1, h2, hp]
  · by_cases hp : pageMask r.cto = pageMask next <;>
      by_cases hq : pageMask r.cfrom = pageMask cur <;>
      simp [helper_decaf_invoke_block_end_callback, blockEndMatches, hEn,
        h1, h2, hp, hq]

/-- Witness for the block-end dispatch matrix at a concrete fully
specific record and a matching transition. -/
theorem block_end_dispatch_matrix_witness :
    helper_decaf_invoke_block_end_callback
      [⟨none, 0x1000, 0x2000, OCB.OCB_ALL, 5⟩] 0x1000 0x2000 = [5] := by
  have h := (block_end_dispatch_matrix
    ⟨none, 0x1000, 0x2000, OCB.OCB_ALL, 5⟩ 0x1000 0x2000 (by decide)).2.2
    (by decide) (by decide)
  rw [h]
  decide

/-- Claim C2: the OCB_CONST_NOT registration itself changes no filter
state and issues no flush, but unregistering that record falls into the
default (OCB_ALL) branch: it tears down the global ALL filter that a
separate OCB_ALL registration had established (count 1 to 0, flag
cleared, whole-cache flush, applicability query now false everywhere),
and block-begin dispatch invokes the OCB_CONST_NOT record at an address
unrelated to it, treating it as a global record. -/
theorem reserved_not_classes_not_inert :
    c2_reg2.2.1 = []
    ∧ c2_reg2.1.bEnableAllBlockBeginCallbacks = true
    ∧ c2_reg2.1.enableAllBlockBeginCallbacksCount = 1
    ∧ helper_decaf_invoke_block_begin_callback
        (c2_reg2.1.callback_list_heads CBType.DECAF_BLOCK_BEGIN_CB)
        0x9000 = [2, 1]
    ∧ c2_unreg.2.1 = [⟨FlushScope.ALL_CACHE, 0⟩]
    ∧ c2_unreg.1.bEnableAllBlockBeginCallbacks = false
    ∧ decaf_is_block_begin_callback_needed c2_unreg.1 0 = false := by
  decide

/-- Claim C3: with condition DECAF_USER_TO_USER_ONLY and a kernel to
kernel transition, the class is computed correctly and the condition does
not include it, yet the handler is invoked: the guard
`temp & (cond == 0)` is 0 whenever the condition value is nonzero, so the
secondary check never skips for any condition other than 0. -/
theorem opcode_range_condition_check_ineffective :
    opcodeRangeTransitionClass 0x90000000 0x90000000 =
      DECAF_KERNEL_TO_KERNEL_ONLY
    ∧ DECAF_KERNEL_TO_KERNEL_ONLY &&& DECAF_USER_TO_USER_ONLY = 0
    ∧ helper_decaf_invoke_opcode_range_callback c3_reg.1
        0x90000000 0x90000000 0x15 = some 1 := by
  decide

/-- Claim C7: two OCB_PAGE registrations at the unaligned address 0x1001
count page 0x1000 twice; only the first flushes (page scope). The first
unregistration issues no flush and leaves the page needed, as the claim
states; but the LAST unregistration also issues no flush and the page
stays needed forever, because unregistration removes the unmasked stored
address 0x1001 while registration added the masked key 0x1000. -/
theorem page_unregister_unmasked_key_leak :
    c7_reg1.2.1 = [⟨FlushScope.PAGE_LEVEL, 0x1000⟩]
    ∧ c7_reg2.2.1 = []
    ∧ c7_unreg1.2.1 = []
    ∧ decaf_is_block_begin_callback_needed c7_unreg1.1 0x1000 = true
    ∧ c7_unreg2.2.1 = []
    ∧ decaf_is_block_begin_callback_needed c7_unreg2.1 0x1234 = true := by
  decide

set_option maxRecDepth 100000 in
/-- Claim C9: after the two overlapping registrations, indices
[0x10, 0x18) hold the first handler and [0x18, 0x28) hold the second
(last registration wins on the overlap); unregistering the first clears
its whole range [0x10, 0x20), including the portion inside the second
registration, leaving only [0x20, 0x28) populated. -/
theorem opcode_range_overlap_scenario :
    ((List.range 0x200).all fun i =>
      slotHandle c9_reg2.1 i ==
        (if 0x10 ≤ i ∧ i ≤ 0x17 then some 1
         else if 0x18 ≤ i ∧ i ≤ 0x27 then some 2
         else none)) = true
    ∧ ((List.range 0x200).all fun i =>
      slotHandle c9_unreg.1 i ==
        (if 0x20 ≤ i ∧ i ≤ 0x27 then some 2 else none)) = true := by
  decide

/-- C4 scenario: register one global (wildcard address, OCB_ALL)
block-begin callback from the empty state. -/
def c4_reg (cond : Option Nat) : DecafState × List Flush × Option Nat :=
  decaf_register_optimized_block_begin_callback initState cond INV_ADDR
    OCB.OCB_ALL

/-- C4 scenario: unregister that same callback (handle 1). -/
def c4_unreg (cond : Option Nat) : DecafState × List Flush × Int :=
  decaf_unregister_optimized_block_begin_callback (c4_reg cond).1 1

/-- Claim C4: registering one global block-begin callback from the empty
state issues exactly one whole-cache flush and makes the translation-time
query true for every address; unregistering it issues exactly one more
whole-cache flush and makes the query false again for every address. -/
theorem global_block_begin_roundtrip (cond : Option Nat) :
    (c4_reg cond).2.1 = [⟨FlushScope.ALL_CACHE, 0⟩]
    ∧ (∀ a, decaf_is_block_begin_callback_needed (c4_reg cond).1 a = true)
    ∧ (c4_unreg cond).2.1 = [⟨FlushScope.ALL_CACHE, 0⟩]
    ∧ (∀ a, decaf_is_block_begin_callback_needed (c4_unreg cond).1 a = false) := by
  refine ⟨rfl, fun a => ?_, rfl, fun a => ?_⟩
  · simp [c4_reg, decaf_register_optimized_block_begin_callback,
      decaf_is_block_begin_callback_needed, initState]
  · simp [c4_unreg, c4_reg, decaf_unregister_optimized_block_begin_callback,
      decaf_register_optimized_block_begin_callback, findRecord, insertHead,
      decaf_is_block_begin_callback_needed, counting_hashtable_exist,
      initState]

/-- Witness for the global block-begin round trip at a concrete condition
and address. -/
theorem global_block_begin_roundtrip_witness :
    (c4_reg none).2.1 = [⟨FlushScope.ALL_CACHE, 0⟩]
    ∧ decaf_is_block_begin_callback_needed (c4_reg none).1 0x7777 = true
    ∧ (c4_unreg none).2.1 = [⟨FlushScope.ALL_CACHE, 0⟩]
    ∧ decaf_is_block_begin_callback_needed (c4_unreg none).1 0x7777 = false := by
  have h := global_block_begin_roundtrip none
  exact ⟨h.1, h.2.1 0x7777, h.2.2.1, h.2.2.2 0x7777⟩

/-- The spec-worded form of the block-end applicability query: true if the
global flag is set, or the from page is counted, or (when the target is
known) the to page is counted or the page pair is mapped. -/
def decaf_is_block_end_callback_needed_spec (s : DecafState)
    (f t : Nat) : Bool :=
  s.bEnableAllBlockEndCallbacks
  || counting_hashtable_exist s.pOBEFromPageTable (pageMask f)
  || (if t = INV_ADDR then false
      else counting_hashtable_exist s.pOBEToPageTable (pageMask t)
           || counting_hashmap_exist s.pOBEPageMap (pageMask f) (pageMask t))

/-- Claim C5: the block-end applicability query of the code equals the
spec-worded cascade for every state and every pair of addresses. -/
theorem is_block_end_needed_spec_equiv (s : DecafState) (f t : Nat) :
    decaf_is_block_end_callback_needed s f t =
      decaf_is_block_end_callback_needed_spec s f t := by
  unfold decaf_is_block_end_callback_needed
    decaf_is_block_end_callback_needed_spec
  cases hb : s.bEnableAllBlockEndCallbacks <;>
    cases hf : counting_hashtable_exist s.pOBEFromPageTable (pageMask f) <;>
    by_cases ht : t = INV_ADDR <;>
    cases hto : counting_hashtable_exist s.pOBEToPageTable (pageMask t) <;>
    simp [hb, hf, ht, hto]

/-- Witness for the block-end applicability equivalence at a concrete
state and address pair. -/
theorem is_block_end_needed_spec_equiv_witness :
    decaf_is_block_end_callback_needed initState 0x1000 0x2000 =
      decaf_is_block_end_callback_needed_spec initState 0x1000 0x2000 :=
  is_block_end_needed_spec_equiv initState 0x1000 0x2000

/-- Claim C6: flush behavior of every page-keyed counting transition. The
three non-global block-end registration shapes and the OCB_PAGE
block-begin registration flush exactly on the 0 to 1 transition of the
key they add, with page scope, except the to-only table, which flushes
the whole cache; the matching unregistrations flush exactly on the 1 to 0
transition of the key they remove, with the same scopes; all other count
transitions flush nothing. -/
theorem page_transition_invalidation_policy (s : DecafState)
    (cond : Option Nat) (f t addr hdl : Nat) (r : CallbackRecord) :
    (f ≠ INV_ADDR → t = INV_ADDR →
      (decaf_register_optimized_block_end_callback s cond f t).2.1 =
        if s.pOBEFromPageTable (pageMask f) = 0
        then [⟨FlushScope.PAGE_LEVEL, f⟩] else []) ∧
    (f = INV_ADDR → t ≠ INV_ADDR →
      (decaf_register_optimized_block_end_callback s cond f t).2.1 =
        if s.pOBEToPageTable (pageMask t) = 0
        then [⟨FlushScope.ALL_CACHE, 0⟩] else []) ∧
    (f ≠ INV_ADDR → t ≠ INV_ADDR →
      (decaf_register_optimized_block_end_callback s cond f t).2.1 =
        if s.pOBEPageMap (pageMask f) (pageMask t) = 0
        then [⟨FlushScope.PAGE_LEVEL, f⟩] else []) ∧
    ((decaf_register_optimized_block_begin_callback s cond addr
        OCB.OCB_PAGE).2.1 =
      if s.pOBBPageTable (pageMask addr) = 0
      then [⟨FlushScope.PAGE_LEVEL, pageMask addr⟩] else []) ∧
    (findRecord (s.callback_list_heads CBType.DECAF_BLOCK_END_CB) hdl =
        some r →
      r.cfrom ≠ INV_ADDR → r.cto = INV_ADDR →
      (decaf_unregister_optimized_block_end_callback s hdl).2.1 =
        if s.pOBEFromPageTable (pageMask r.cfrom) = 1
        then [⟨FlushScope.PAGE_LEVEL, pageMask r.cfrom⟩] else []) ∧
    (findRecord (s.callback_list_heads CBType.DECAF_BLOCK_END_CB) hdl =
        some r →
      r.cfrom = INV_ADDR → r.cto ≠ INV_ADDR →
      (decaf_unregister_optimized_block_end_callback s hdl).2.1 =
        if s.pOBEToPageTable (pageMask r.cto) = 1
        then [⟨FlushScope.ALL_CACHE, 0⟩] else []) ∧
    (findRecord (s.callback_list_heads CBType.DECAF_BLOCK_END_CB) hdl =
        some r →
      r.cfrom ≠ INV_ADDR → r.cto ≠ INV_ADDR →
      (decaf_unregister_optimized_block_end_callback s hdl).2.1 =
        if s.pOBEPageMap (pageMask r.cfrom) (pageMask r.cto) = 1
        then [⟨FlushScope.PAGE_LEVEL, pageMask r.cfrom⟩] else []) ∧
    (findRecord (s.callback_list_heads CBType.DECAF_BLOCK_BEGIN_CB) hdl =
        some r →
      r.ocb_type = OCB.OCB_PAGE →
      (decaf_unregister_optimized_block_begin_callback s hdl).2.1 =
        if s.pOBBPageTable r.cfrom = 1
        then [⟨FlushScope.PAGE_LEVEL, r.cfrom⟩] else []) := by
  refine ⟨fun h1 h2 => ?_, fun h1 h2 => ?_, fun h1 h2 => ?_, ?_,
    fun hf h1 h2 => ?_, fun hf h1 h2 => ?_, fun hf h1 h2 => ?_,
    fun hf hty => ?_⟩
  · simp [decaf_register_optimized_block_end_callback, h1, h2,
      counting_hashtable_add, beq_iff_eq]
  · simp [decaf_register_optimized_block_end_callback, h1, h2,
      counting_hashtable_add, beq_iff_eq]
  · simp [decaf_register_optimized_block_end_callback, h1, h2,
      counting_hashmap_add, beq_iff_eq]
  · simp [decaf_register_optimized_block_begin_callback,
      counting_hashtable_add, beq_iff_eq]
  · simp [decaf_unregister_optimized_block_end_callback, hf, h1, h2,
      counting_hashtable_remove, beq_iff_eq]
  · simp [decaf_unregister_optimized_block_end_callback, hf, h1, h2,
      counting_hashtable_remove, beq_iff_eq]
  · simp [decaf_unregister_optimized_block_end_callback, hf, h1, h2,
      counting_hashmap_remove, beq_iff_eq]
  · simp [decaf_unregister_optimized_block_begin_callback, hf, hty,
      counting_hashtable_remove, beq_iff_eq]

/-- Witness for the transition policy: a from-only block-end registration
on the empty state, whose key transitions 0 to 1 and flushes its page. -/
theorem page_transition_invalidation_policy_witness :
    (decaf_register_optimized_block_end_callback initState none 0x1001
      INV_ADDR).2.1 = [⟨FlushScope.PAGE_LEVEL, 0x1001⟩] := by
  have h := (page_transition_invalidation_policy initState none 0x1001
      INV_ADDR 0 0 ⟨none, 0, 0, OCB.OCB_ALL, 0⟩).1 (by decide) rfl
  rw [h]
  decide

/-- Claim C8: an opcode-range registration with end before start returns
the null handle and leaves the whole state untouched, issuing no
flush. -/
theorem opcode_range_reject_end_lt_start (s : DecafState)
    (condition : Option Nat) (start_opcode end_opcode : Nat)
    (h : end_opcode < start_opcode) :
    decaf_register_opcode_range_callback s condition start_opcode
      end_opcode = (s, [], none) := by
  unfold decaf_register_opcode_range_callback
  simp [h]

/-- Witness for the range rejection at the concrete bounds of the spec
scenario: start 0x20, end 0x10. -/
theorem opcode_range_reject_end_lt_start_witness :
    decaf_register_opcode_range_callback initState none 0x20 0x10 =
      (initState, [], none) :=
  opcode_range_reject_end_lt_start initState none 0x20 0x10 (by decide)

/-- Claim C10: for every event kind other than block begin, block end and
tlb-exec, the generic registration flushes the whole cache exactly when
that kind had no registrations before the insertion, and the generic
unregistration flushes exactly when the removal leaves the kind with no
registrations (a missing handle has no effect at all); tlb-exec
registrations and unregistrations never flush. -/
theorem generic_register_unregister_flush (s : DecafState) (ty : CBType)
    (cond : Option Nat) (hdl : Nat) :
    (ty ≠ CBType.DECAF_BLOCK_BEGIN_CB → ty ≠ CBType.DECAF_BLOCK_END_CB →
     ty ≠ CBType.DECAF_TLB_EXEC_CB →
      (decaf_register_callback s ty cond).2.1 =
        if s.callback_list_heads ty = []
        then [⟨FlushScope.ALL_CACHE, 0⟩] else []) ∧
    (ty ≠ CBType.DECAF_BLOCK_BEGIN_CB → ty ≠ CBType.DECAF_BLOCK_END_CB →
     ty ≠ CBType.DECAF_TLB_EXEC_CB →
      (∀ r, findRecord (s.callback_list_heads ty) hdl = some r →
        (decaf_unregister_callback s ty hdl).2.1 =
          if removeRecord (s.callback_list_heads ty) hdl = []
          then [⟨FlushScope.ALL_CACHE, 0⟩] else []) ∧
      (findRecord (s.callback_list_heads ty) hdl = none →
        decaf_unregister_callback s ty hdl = (s, [], -1))) ∧
    ((decaf_register_callback s CBType.DECAF_TLB_EXEC_CB cond).2.1 = []) ∧
    ((decaf_unregister_callback s CBType.DECAF_TLB_EXEC_CB hdl).2.1 = []) := by
  refine ⟨fun h1 h2 h3 => ?_, fun h1 h2 h3 => ⟨fun r hf => ?_, fun hf => ?_⟩,
    ?_, ?_⟩
  · simp [decaf_register_callback, h1, h2, h3]
  · simp [decaf_unregister_callback, h1, h2, h3, hf]
  · simp [decaf_unregister_callback, h1, h2, hf]
  · simp [decaf_register_callback]
  · unfold decaf_unregister_callback
    cases hf : findRecord
        (s.callback_list_heads CBType.DECAF_TLB_EXEC_CB) hdl <;>
      simp [hf]

/-- Witness for the generic flush policy: registering the first memory
read callback on the empty state flushes the whole cache. -/
theorem generic_register_unregister_flush_witness :
    (decaf_register_callback initState CBType.DECAF_MEM_READ_CB none).2.1 =
      [⟨FlushScope.ALL_CACHE, 0⟩] := by
  have h := (generic_register_unregister_flush initState
      CBType.DECAF_MEM_READ_CB none 0).1 (by decide) (by decide) (by decide)
  rw [h]
  decide
